import Mathlib

/-!
Shallow embedding of `argus/handler.py`: the option resolver `define_options`,
the `Argus` event handler (event filtering, message shaping, fan-out to
websockets), and the websocket-session registry logic
(`ArgusWebSocketHandler.initiation_handler` / `on_close` over the module-level
tables `active_handlers` / `active_observers`).

Modelling conventions:
* Websockets are identified by natural numbers.
* Python dicts become association lists `List (key × value)` manipulated by
  `getKey` / `updList` / `delKey`; reachable states keep their key lists
  duplicate-free, and the lemmas that need this take it as a hypothesis.
* The watchdog `Observer` objects are modelled by an identifier together with
  a `running` flag kept in a `ServerState.observers` table; `Observer.start`
  sets the flag (or raises `OSError`, modelled by a boolean input), and
  `Observer.stop` clears it.
* Filesystem existence (`os.path.exists`) and `OSError` on `observer.start()`
  are environment inputs, passed as booleans.
* `re.sub(pattern, '', s)` is modelled for a pattern with no regex
  metacharacters: it deletes every leftmost non-overlapping occurrence of the
  pattern string from `s`, scanning left to right.
-/

/-- The eight default option tokens of `define_options` (source lines 36-39). -/
def default_options : List String :=
  ["CRfile", "CRdir", "MDfile", "MDdir", "MVfile", "MVdir", "DLfile", "DLdir"]

/-- Embedding of `define_options(enable, disable)` (source lines 19-45).
Python returns `list(set(...))`, whose element order is unspecified; the
embedding picks a canonical order, and claims about the result are stated up
to membership where order could matter. -/
def define_options (enable : List String) (disable : List String) : List String :=
  if disable = enable ∧ enable = [] then
    default_options
  else if "all" ∈ disable then
    (enable.filter (fun t => t ∈ default_options)).dedup
  else
    default_options.filter (fun t => t ∉ disable)

/-- Replacement engine for `re.sub(pat, '', s)` with a literal pattern, with
explicit fuel (one unit per character of the subject suffices). -/
def replAux (pat : List Char) : Nat → List Char → List Char
  | 0, xs => xs
  | _ + 1, [] => []
  | n + 1, c :: rest =>
    if pat ≠ [] ∧ pat <+: (c :: rest) then
      replAux pat n (rest.drop (pat.length - 1))
    else
      c :: replAux pat n rest

/-- Delete every leftmost non-overlapping occurrence of `pat` from `xs`. -/
def replaceAll (pat xs : List Char) : List Char :=
  replAux pat xs.length xs

/-- Embedding of `sub(pattern, '', s)` from `re`, as used at source lines 70,
86, 102, 118-119: every occurrence of `pattern` in `s` is deleted (the call
sites always pass the empty replacement, and the pattern is the watched root
path, assumed free of regex metacharacters). -/
def sub (pattern s : String) : String :=
  String.mk (replaceAll pattern.data s.data)

/-- The four watchdog event kinds dispatched to `on_created` / `on_modified` /
`on_deleted` / `on_moved`. -/
inductive EventKind where
  | created
  | modified
  | deleted
  | moved
deriving DecidableEq

/-- A raw watchdog filesystem event: kind, directory flag, source path and
(meaningful for `moved` only) destination path. -/
structure FsEvent where
  kind : EventKind
  is_directory : Bool
  src_path : String
  dest_path : String
deriving DecidableEq

/-- The JSON object written by the `Argus.on_*` methods, modelled by its
fields; `dest_path` is `some _` exactly when the source dict carries the
`dest_path` key (source lines 67-71, 83-87, 99-103, 115-120). -/
structure Message where
  event_type : String
  is_directory : Bool
  src_path : String
  dest_path : Option String
deriving DecidableEq

/-- The `Argus(RegexMatchingEventHandler)` instance state (source lines
48-53): subscriber websockets, watched root, and the option set fixed at
construction. -/
structure Argus where
  websockets : List Nat
  root : String
  options : List String
deriving DecidableEq

/-- Embedding of `Argus.on_created` (source lines 59-73), returning the
message it would fan out, or `none` when the event is filtered away. -/
def Argus.on_created (a : Argus) (is_directory : Bool) (src_path : String) :
    Option Message :=
  if (is_directory = true ∧ "CRdir" ∈ a.options) ∨
      (is_directory = false ∧ "CRfile" ∈ a.options) then
    some { event_type := "created", is_directory := is_directory,
           src_path := sub a.root src_path, dest_path := none }
  else
    none

/-- Embedding of `Argus.on_modified` (source lines 75-89). -/
def Argus.on_modified (a : Argus) (is_directory : Bool) (src_path : String) :
    Option Message :=
  if (is_directory = true ∧ "MDdir" ∈ a.options) ∨
      (is_directory = false ∧ "MDfile" ∈ a.options) then
    some { event_type := "modified", is_directory := is_directory,
           src_path := sub a.root src_path, dest_path := none }
  else
    none

/-- Embedding of `Argus.on_deleted` (source lines 91-105). -/
def Argus.on_deleted (a : Argus) (is_directory : Bool) (src_path : String) :
    Option Message :=
  if (is_directory = true ∧ "DLdir" ∈ a.options) ∨
      (is_directory = false ∧ "DLfile" ∈ a.options) then
    some { event_type := "deleted", is_directory := is_directory,
           src_path := sub a.root src_path, dest_path := none }
  else
    none

/-- Embedding of `Argus.on_moved` (source lines 107-122). -/
def Argus.on_moved (a : Argus) (is_directory : Bool) (src_path dest_path : String) :
    Option Message :=
  if (is_directory = true ∧ "MVdir" ∈ a.options) ∨
      (is_directory = false ∧ "MVfile" ∈ a.options) then
    some { event_type := "moved", is_directory := is_directory,
           src_path := sub a.root src_path,
           dest_path := some (sub a.root dest_path) }
  else
    none

/-- Watchdog's per-kind dispatch into the four `Argus.on_*` methods. -/
def Argus.dispatch (a : Argus) (e : FsEvent) : Option Message :=
  match e.kind with
  | .created => a.on_created e.is_directory e.src_path
  | .modified => a.on_modified e.is_directory e.src_path
  | .deleted => a.on_deleted e.is_directory e.src_path
  | .moved => a.on_moved e.is_directory e.src_path e.dest_path

/-- The writes an event produces: the filtered message, if any, paired with
every subscriber websocket (the `write_msg` loop at source lines 55-57, in
the failure-free run). -/
def Argus.handle_event (a : Argus) (e : FsEvent) : List (Nat × Message) :=
  match a.dispatch e with
  | none => []
  | some m => a.websockets.map (fun s => (s, m))

/-- Option token selected by an event's kind and directory flag, as the spec
states the mapping: created→CRfile/CRdir, modified→MDfile/MDdir,
deleted→DLfile/DLdir, moved→MVfile/MVdir. -/
def claimToken (k : EventKind) (isDir : Bool) : String :=
  match k, isDir with
  | .created, false => "CRfile"
  | .created, true => "CRdir"
  | .modified, false => "MDfile"
  | .modified, true => "MDdir"
  | .deleted, false => "DLfile"
  | .deleted, true => "DLdir"
  | .moved, false => "MVfile"
  | .moved, true => "MVdir"

/-- The `event_type` string each kind produces. -/
def kindString (k : EventKind) : String :=
  match k with
  | .created => "created"
  | .modified => "modified"
  | .deleted => "deleted"
  | .moved => "moved"

/-- Execution of the `for` loop of `Argus.write_msg` (source lines 55-57)
under a transport-failure model: `fails w = true` means
`w.write_message(...)` raises. Python runs the loop in list order and an
exception propagates at once, so the result is the list of websockets that
received the message, paired with whether an exception escaped the loop. -/
def write_msg_run (fails : Nat → Bool) : List Nat → List Nat × Bool
  | [] => ([], false)
  | s :: rest =>
    if fails s then
      ([], true)
    else
      ((write_msg_run fails rest).1.cons s, (write_msg_run fails rest).2)

/-- Embedding of `Argus.write_msg` under the transport-failure model. -/
def Argus.write_msg (a : Argus) (fails : Nat → Bool) : List Nat × Bool :=
  write_msg_run fails a.websockets

/-- Association-list read, modelling Python dict read `d[k]` / `k in d`. -/
def getKey {α β : Type} [DecidableEq α] (k : α) : List (α × β) → Option β
  | [] => none
  | (k', v) :: rest => if k' = k then some v else getKey k rest

/-- Association-list write, modelling Python dict assignment `d[k] = v`:
replace the binding if the key is present, append it otherwise. -/
def updList {α β : Type} [DecidableEq α] (k : α) (v : β) :
    List (α × β) → List (α × β)
  | [] => [(k, v)]
  | (k', v') :: rest =>
    if k' = k then (k, v) :: rest else (k', v') :: updList k v rest

/-- Association-list delete, modelling Python `del d[k]` (keys are unique in
a dict, so removing every binding of `k` coincides with removing the one). -/
def delKey {α β : Type} [DecidableEq α] (k : α) : List (α × β) → List (α × β)
  | [] => []
  | (k', v') :: rest =>
    if k' = k then delKey k rest else (k', v') :: delKey k rest

/-- The process-wide mutable state of `handler.py`: the two module-level
dicts `active_handlers` (path → `Argus` handler) and `active_observers`
(path → observer), plus a table of every observer ever constructed with its
running flag, and a fresh-id counter for constructing observers. -/
structure ServerState where
  active_handlers : List (String × Argus)
  active_observers : List (String × Nat)
  observers : List (Nat × Bool)
  next_id : Nat
deriving DecidableEq

/-- The per-session attributes of `ArgusWebSocketHandler` that the registry
logic reads: the socket identity, `self.path`, `self.observer` and
`self.started_observer`. -/
structure Session where
  sock : Nat
  path : String
  observer : Option Nat
  started_observer : Bool
deriving DecidableEq

/-- Result of `initiation_handler`: the new global state, the session
attributes, the diagnostic messages written to the opening socket, whether
`self.close()` was called, and whether an uncaught `KeyError` escaped. -/
structure InitResult where
  st : ServerState
  sess : Session
  messages : List String
  closed : Bool
  error : Bool
deriving DecidableEq

/-- Result of `on_close`: the new global state and whether an uncaught
`KeyError` escaped. -/
structure CloseResult where
  st : ServerState
  error : Bool
deriving DecidableEq

/-- Stop one observer: clear its running flag (`self.observer.stop()`). -/
def stopObs (oid : Nat) (obs : List (Nat × Bool)) : List (Nat × Bool) :=
  obs.map (fun e => if e.1 = oid then (e.1, false) else e)

/-- Embedding of `ArgusWebSocketHandler.initiation_handler` (source lines
144-186). `path` is the already-joined `os.path.join(ARGUS_ROOT, ...)`
value; `path_exists` models `os.path.exists(self.path)`; `start_fails`
models `OSError` raised by `self.observer.start()`. -/
def initiation_handler (st : ServerState) (sock : Nat) (path : String)
    (path_exists : Bool) (enable disable : List String) (start_fails : Bool) :
    InitResult :=
  if path_exists = false then
    { st := st,
      sess := { sock := sock, path := path, observer := none,
                started_observer := false },
      messages := ["Path does not exist."], closed := true, error := false }
  else
    match getKey path st.active_observers with
    | some oid =>
      match getKey path st.active_handlers with
      | some h =>
        { st :=
            { st with
              active_handlers :=
                updList path { h with websockets := h.websockets ++ [sock] }
                  st.active_handlers },
          sess := { sock := sock, path := path, observer := some oid,
                    started_observer := true },
          messages := [], closed := false, error := false }
      | none =>
        { st := st,
          sess := { sock := sock, path := path, observer := none,
                    started_observer := false },
          messages := [], closed := false, error := true }
    | none =>
      let options := define_options enable disable
      if options = [] then
        { st := st,
          sess := { sock := sock, path := path, observer := none,
                    started_observer := false },
          messages := [], closed := false, error := false }
      else if start_fails then
        { st :=
            { st with
              observers := st.observers ++ [(st.next_id, false)],
              next_id := st.next_id + 1 },
          sess := { sock := sock, path := path, observer := some st.next_id,
                    started_observer := false },
          messages := ["Cannot start observer"], closed := true, error := false }
      else
        { st :=
            { st with
              active_handlers :=
                updList path
                  { websockets := [sock], root := path, options := options }
                  st.active_handlers,
              active_observers := updList path st.next_id st.active_observers,
              observers := st.observers ++ [(st.next_id, true)],
              next_id := st.next_id + 1 },
          sess := { sock := sock, path := path, observer := some st.next_id,
                    started_observer := true },
          messages := [], closed := false, error := false }

/-- Embedding of `ArgusWebSocketHandler.on_close` (source lines 201-210):
`remove_socket` erases the first occurrence of the socket if present
(source lines 127-129); when the subscriber list becomes empty the observer
is stopped and both registry entries are deleted. -/
def on_close (st : ServerState) (sess : Session) : CloseResult :=
  if sess.started_observer = false then
    { st := st, error := false }
  else
    match getKey sess.path st.active_handlers with
    | none => { st := st, error := true }
    | some h =>
      let ws' := h.websockets.erase sess.sock
      if ws' = [] then
        { st :=
            { st with
              observers :=
                match sess.observer with
                | some oid => stopObs oid st.observers
                | none => st.observers,
              active_observers := delKey sess.path st.active_observers,
              active_handlers := delKey sess.path st.active_handlers },
          error := false }
      else
        { st :=
            { st with
              active_handlers :=
                updList sess.path { h with websockets := ws' }
                  st.active_handlers },
          error := false }

/-- Number of running observers (monitors started and not stopped). -/
def runningCount (st : ServerState) : Nat :=
  (st.observers.filter (fun e => e.2 = true)).length

/-- The C10 invariant: the two registry dicts always hold exactly the same
keys (stated as equality of key lists, which the code maintains since it
inserts into both and deletes from both together). -/
def keysEq (st : ServerState) : Prop :=
  st.active_handlers.map Prod.fst = st.active_observers.map Prod.fst

/-- Run one subscribe per socket, in order, all for the same existing path
and the same requested options, with no `OSError`. -/
def subscribeAll (p : String) (en dis : List String) :
    ServerState → List Nat → ServerState
  | st, [] => st
  | st, sock :: rest =>
    subscribeAll p en dis (initiation_handler st sock p true en dis false).st rest

/-- Concrete registry fixture for the C6 witness: one watched path `/a`
with two subscribers. -/
def hC6 : Argus :=
  { websockets := [1, 2], root := "/a", options := default_options }

/-- Concrete server state for the C6 witness. -/
def stC6 : ServerState :=
  { active_handlers := [("/a", hC6)], active_observers := [("/a", 0)],
    observers := [(0, true)], next_id := 1 }

/-- Concrete closing session for the C6 witness. -/
def sessC6 : Session :=
  { sock := 2, path := "/a", observer := some 0, started_observer := true }

/-- Concrete handler for the C9 witness: only `CRfile` enabled. -/
def hC9 : Argus :=
  { websockets := [1], root := "/a", options := ["CRfile"] }

/-- Concrete server state for the C9 witness: `/a` is already watched. -/
def stC9 : ServerState :=
  { active_handlers := [("/a", hC9)], active_observers := [("/a", 0)],
    observers := [(0, true)], next_id := 1 }

/-- CLAIM C2. Option resolution obeys the three-branch law: with both lists
empty the full default set of 8 tokens is returned; with the sentinel `all`
in `disable` the result is `enable ∩ defaults`; otherwise the result is
`defaults − disable` and `enable` is ignored; together with the four concrete
instances named by the spec. -/
theorem define_options_resolution_law :
    (∀ enable disable : List String,
      (enable = [] ∧ disable = [] → define_options enable disable = default_options) ∧
      ("all" ∈ disable →
        ∀ t, t ∈ define_options enable disable ↔ t ∈ enable ∧ t ∈ default_options) ∧
      (¬(enable = [] ∧ disable = []) → "all" ∉ disable →
        ∀ t, t ∈ define_options enable disable ↔ t ∈ default_options ∧ t ∉ disable)) ∧
    default_options.length = 8 ∧
    define_options [] [] = default_options ∧
    define_options ["CRfile"] ["all"] = ["CRfile"] ∧
    (define_options [] ["CRfile"]).length = 7 ∧
    (define_options ["CRfile"] ["CRdir"]).length = 7 ∧
    define_options ["CRfile"] ["CRdir"] = define_options [] ["CRdir"] := by
  refine ⟨?_, by decide, by decide, by decide, by decide, by decide, by decide⟩
  intro enable disable
  refine ⟨?_, ?_, ?_⟩
  · rintro ⟨he, hd⟩
    simp [define_options, he, hd]
  · intro hall t
    have hne : ¬(disable = enable ∧ enable = []) := by
      rintro ⟨h1, h2⟩
      rw [h1, h2] at hall
      exact (List.not_mem_nil "all") hall
    simp [define_options, hne, hall, List.mem_dedup, List.mem_filter, and_comm]
  · intro hne hall t
    have hne' : ¬(disable = enable ∧ enable = []) := by
      rintro ⟨h1, h2⟩
      exact hne ⟨h2, h1.trans h2⟩
    simp [define_options, hne', hall, List.mem_filter]

/-- Witness for C2 at concrete inputs. -/
theorem define_options_resolution_law_witness :
    ("CRdir" ∈ define_options ["CRfile", "CRdir"] ["all"] ↔
      "CRdir" ∈ (["CRfile", "CRdir"] : List String) ∧ "CRdir" ∈ default_options) ∧
    ("MDdir" ∈ define_options ["CRfile"] ["CRdir"] ↔
      "MDdir" ∈ default_options ∧ "MDdir" ∉ (["CRdir"] : List String)) :=
  ⟨(define_options_resolution_law.1 ["CRfile", "CRdir"] ["all"]).2.1 (by decide) "CRdir",
   (define_options_resolution_law.1 ["CRfile"] ["CRdir"]).2.2 (by decide) (by decide) "MDdir"⟩

/-- Helper: when the filter drops an event, the fan-out writes nothing. -/
theorem handle_event_eq_nil (a : Argus) (e : FsEvent) (h : a.dispatch e = none) :
    a.handle_event e = [] := by
  unfold Argus.handle_event
  rw [h]

/-- CLAIM C3. The filter forwards iff the token selected by the event's kind
and directory flag is in the options; a forwarded message carries exactly
`event_type`, `is_directory`, `src_path` and, for moved events only,
`dest_path`; a dropped event writes nothing to any subscriber. -/
theorem event_filter_spec (a : Argus) (e : FsEvent) :
    ((a.dispatch e).isSome ↔ claimToken e.kind e.is_directory ∈ a.options) ∧
    (∀ m, a.dispatch e = some m →
      m.event_type = kindString e.kind ∧
      m.is_directory = e.is_directory ∧
      m.src_path = sub a.root e.src_path ∧
      m.dest_path = (if e.kind = .moved then some (sub a.root e.dest_path) else none)) ∧
    (a.dispatch e = none → a.handle_event e = []) := by
  refine ⟨?_, ?_, handle_event_eq_nil a e⟩
  · obtain ⟨k, d, sp, dp⟩ := e
    cases k <;> cases d <;>
      simp [Argus.dispatch, Argus.on_created, Argus.on_modified, Argus.on_deleted,
        Argus.on_moved, claimToken]
  · intro m hm
    obtain ⟨k, d, sp, dp⟩ := e
    cases k <;> cases d <;>
      simp only [Argus.dispatch, Argus.on_created, Argus.on_modified, Argus.on_deleted,
        Argus.on_moved] at hm <;>
      split at hm <;> first
      | (cases hm; simp [kindString])
      | simp_all

/-- Witness for C3 at a concrete handler and event. -/
theorem event_filter_spec_witness :
    ((Argus.dispatch { websockets := [5], root := "/r", options := ["CRfile"] }
        { kind := .created, is_directory := false, src_path := "/r/a.txt",
          dest_path := "" }).isSome ↔
      claimToken .created false ∈ (["CRfile"] : List String)) ∧
    (Argus.dispatch { websockets := [5], root := "/r", options := ["CRdir"] }
          { kind := .deleted, is_directory := false, src_path := "/r/a.txt",
            dest_path := "" } = none →
      Argus.handle_event { websockets := [5], root := "/r", options := ["CRdir"] }
          { kind := .deleted, is_directory := false, src_path := "/r/a.txt",
            dest_path := "" } = []) :=
  ⟨(event_filter_spec { websockets := [5], root := "/r", options := ["CRfile"] }
      { kind := .created, is_directory := false, src_path := "/r/a.txt",
        dest_path := "" }).1,
   (event_filter_spec { websockets := [5], root := "/r", options := ["CRdir"] }
      { kind := .deleted, is_directory := false, src_path := "/r/a.txt",
        dest_path := "" }).2.2⟩

/-- Helper: the replacement engine leaves a subject alone when the pattern
occurs nowhere in it. -/
theorem replAux_of_not_infix (pat : List Char) :
    ∀ (n : Nat) (xs : List Char), ¬ pat <:+: xs → replAux pat n xs = xs := by
  intro n
  induction n with
  | zero => intro xs _; rfl
  | succ n ih =>
    intro xs h
    match xs with
    | [] => rfl
    | c :: rest =>
      rw [replAux, if_neg, ih rest (fun hi => h (List.infix_cons hi))]
      rintro ⟨_, hp⟩
      exact h hp.isInfix

/-- Helper: the replacement engine deletes a leading occurrence of the
pattern and continues on the remainder. -/
theorem replAux_append (pat : List Char) (hne : pat ≠ []) (n : Nat)
    (rest : List Char) : replAux pat (n + 1) (pat ++ rest) = replAux pat n rest := by
  match pat, hne with
  | p :: pt, _ =>
    rw [List.cons_append, replAux, if_pos ⟨by simp, ⟨rest, by simp⟩⟩]
    have hl : (p :: pt).length - 1 = pt.length := by simp
    rw [hl, List.drop_left]

/-- Helper: deleting every occurrence of `pat` from `pat ++ rest`, when `pat`
does not occur in `rest`, yields `rest`. -/
theorem replaceAll_append_of_not_infix (pat rest : List Char) (hne : pat ≠ [])
    (h : ¬ pat <:+: rest) : replaceAll pat (pat ++ rest) = rest := by
  unfold replaceAll
  match pat, hne with
  | p :: pt, _ =>
    have hlen : ((p :: pt) ++ rest).length = (pt.length + rest.length) + 1 := by
      simp [List.length_append]
    rw [hlen, replAux_append (p :: pt) (by simp),
      replAux_of_not_infix (p :: pt) _ rest h]

/-- Helper: on the `sub` level — when the root is nonempty and does not occur
in the remainder, stripping the root from `root ++ s` yields `s`. -/
theorem sub_root_append (root s : String) (hne : root ≠ "")
    (h : ¬ root.data <:+: s.data) : sub root (root ++ s) = s := by
  have hd : root.data ≠ [] := by
    intro hnil
    apply hne
    cases root
    cases hnil
    rfl
  unfold sub
  rw [String.data_append, replaceAll_append_of_not_infix _ _ hd h]

/-- CLAIM C4, counterexample. `re.sub` deletes every occurrence of the watch
root, not only the leading one: with root `/w`, the file `/w/w/x.txt` (the
root-relative suffix is `/w/x.txt`) is delivered as `/x.txt`. -/
theorem path_strip_counterexample :
    ("/w" : String) ++ "/w/x.txt" = "/w/w/x.txt" ∧
    Argus.dispatch { websockets := [0], root := "/w", options := default_options }
        { kind := .created, is_directory := false, src_path := "/w/w/x.txt",
          dest_path := "" } =
      some { event_type := "created", is_directory := false,
             src_path := "/x.txt", dest_path := none } ∧
    ("/x.txt" : String) ≠ "/w/x.txt" :=
  ⟨by decide, by decide, by decide⟩

/-- CLAIM C4, amended. For a forwarded event whose absolute path is the watch
root followed by a remainder in which the root string does not occur again,
the delivered `src_path` (and `dest_path` for moved events) is the
root-relative suffix; when the root occurs again in the remainder, `re.sub`
also deletes those occurrences (see the counterexample). -/
theorem path_strip_amended (a : Argus) (kind : EventKind) (isDir : Bool)
    (rest destRest : String) (hne : a.root ≠ "")
    (h1 : ¬ a.root.data <:+: rest.data) (h2 : ¬ a.root.data <:+: destRest.data) :
    ∀ m, a.dispatch
        { kind := kind, is_directory := isDir,
          src_path := a.root ++ rest, dest_path := a.root ++ destRest } = some m →
      m.src_path = rest ∧
      (kind = .moved → m.dest_path = some destRest) ∧
      (kind ≠ .moved → m.dest_path = none) := by
  intro m hm
  cases kind <;>
    simp only [Argus.dispatch, Argus.on_created, Argus.on_modified,
      Argus.on_deleted, Argus.on_moved] at hm <;>
    split at hm <;>
    first
    | (cases hm
       refine ⟨sub_root_append a.root rest hne h1, ?_, ?_⟩ <;>
         simp [sub_root_append a.root destRest hne h2])
    | simp_all

/-- Witness for C4's amended theorem: a moved event under root `/w` whose
suffixes `/x.txt` and `/y.txt` do not contain the root again. -/
theorem path_strip_amended_witness :
    Message.src_path
        { event_type := "moved", is_directory := false,
          src_path := "/x.txt", dest_path := some "/y.txt" } = "/x.txt" ∧
    (EventKind.moved = EventKind.moved →
      Message.dest_path
        { event_type := "moved", is_directory := false,
          src_path := "/x.txt", dest_path := some "/y.txt" } = some "/y.txt") ∧
    (EventKind.moved ≠ EventKind.moved →
      Message.dest_path
        { event_type := "moved", is_directory := false,
          src_path := "/x.txt", dest_path := some "/y.txt" } = none) :=
  path_strip_amended { websockets := [1], root := "/w", options := default_options }
    .moved false "/x.txt" "/y.txt" (by decide) (by decide) (by decide)
    { event_type := "moved", is_directory := false, src_path := "/x.txt",
      dest_path := some "/y.txt" } (by decide)

/-- CLAIM C5, counterexample. With subscribers `[0, 1, 2]` and a write
failure at subscriber 1 only, subscriber 2 never receives the message: the
failure is not isolated, the loop aborts. -/
theorem write_failure_counterexample :
    (Argus.write_msg { websockets := [0, 1, 2], root := "", options := [] }
        (fun w => w == 1)).1 = [0] ∧
    2 ∈ ({ websockets := [0, 1, 2], root := "", options := [] } : Argus).websockets ∧
    (fun w : Nat => w == 1) 2 = false ∧
    2 ∉ (Argus.write_msg { websockets := [0, 1, 2], root := "", options := [] }
        (fun w => w == 1)).1 :=
  ⟨by decide, by decide, by decide, by decide⟩

/-- Helper: the fan-out loop delivers exactly to the longest failure-free
leading segment of the subscriber list, and an exception escapes iff some
subscriber fails. -/
theorem write_msg_run_spec (fails : Nat → Bool) (ws : List Nat) :
    (write_msg_run fails ws).1 = ws.takeWhile (fun w => !fails w) ∧
    (write_msg_run fails ws).2 = ws.any fails := by
  induction ws with
  | nil => simp [write_msg_run]
  | cons s rest ih =>
    cases hf : fails s <;>
      simp [write_msg_run, hf, List.takeWhile_cons, ih.1, ih.2]

/-- Helper: with no failing subscriber the loop delivers to everyone. -/
theorem write_msg_run_all_ok (fails : Nat → Bool) (ws : List Nat)
    (hall : ∀ w ∈ ws, fails w = false) : (write_msg_run fails ws).1 = ws := by
  induction ws with
  | nil => rfl
  | cons s rest ih =>
    simp [write_msg_run, hall s (List.mem_cons_self s rest),
      ih (fun w hw => hall w (List.mem_cons_of_mem s hw))]

/-- CLAIM C5, amended. A transport write failure aborts the fan-out loop:
the subscribers strictly before the first failing one (in list order)
receive the message, the failing one and all later ones do not; the
exception escapes `write_msg` exactly when some subscriber fails (teardown
of the handler still happens only in `on_close`); with no failing
subscriber, every subscriber receives the message. -/
theorem write_failure_aborts_fanout (a : Argus) (fails : Nat → Bool) :
    (a.write_msg fails).1 = a.websockets.takeWhile (fun w => !fails w) ∧
    (a.write_msg fails).2 = a.websockets.any fails ∧
    ((∀ w ∈ a.websockets, fails w = false) → (a.write_msg fails).1 = a.websockets) := by
  exact ⟨(write_msg_run_spec fails a.websockets).1,
    (write_msg_run_spec fails a.websockets).2,
    fun hall => write_msg_run_all_ok fails a.websockets hall⟩

/-- Witness for C5's amended theorem at concrete subscriber lists. -/
theorem write_failure_aborts_fanout_witness :
    (Argus.write_msg { websockets := [3, 4], root := "", options := [] }
        (fun w => w == 4)).1 = ([3, 4] : List Nat).takeWhile (fun w => !(w == 4)) ∧
    (Argus.write_msg { websockets := [3, 4], root := "", options := [] }
        (fun _ => false)).1 = [3, 4] :=
  ⟨(write_failure_aborts_fanout { websockets := [3, 4], root := "", options := [] }
      (fun w => w == 4)).1,
   (write_failure_aborts_fanout { websockets := [3, 4], root := "", options := [] }
      (fun _ => false)).2.2 (by decide)⟩

/-- Helper: reading back the key just written. -/
theorem getKey_updList_self {α β : Type} [DecidableEq α] (k : α) (v : β)
    (l : List (α × β)) : getKey k (updList k v l) = some v := by
  induction l with
  | nil => simp [updList, getKey]
  | cons e rest ih =>
    obtain ⟨k', v'⟩ := e
    by_cases h : k' = k <;> simp [updList, getKey, h, ih]

/-- Helper: a key reads `none` exactly when it is not among the keys. -/
theorem getKey_eq_none_iff {α β : Type} [DecidableEq α] (k : α)
    (l : List (α × β)) : getKey k l = none ↔ k ∉ l.map Prod.fst := by
  induction l with
  | nil => simp [getKey]
  | cons e rest ih =>
    obtain ⟨k', v'⟩ := e
    by_cases h : k' = k
    · simp [getKey, h]
    · simp [getKey, h, ih, Ne.symm h]

/-- Helper: a successful read means the key is among the keys. -/
theorem mem_keys_of_getKey_eq_some {α β : Type} [DecidableEq α] {k : α}
    {v : β} {l : List (α × β)} (h : getKey k l = some v) :
    k ∈ l.map Prod.fst := by
  by_contra hmem
  rw [(getKey_eq_none_iff k l).mpr hmem] at h
  cases h

/-- Helper: writing an existing key leaves the key list unchanged. -/
theorem keys_updList_of_mem {α β : Type} [DecidableEq α] (k : α) (v : β)
    (l : List (α × β)) (h : k ∈ l.map Prod.fst) :
    (updList k v l).map Prod.fst = l.map Prod.fst := by
  induction l with
  | nil => simp at h
  | cons e rest ih =>
    obtain ⟨k', v'⟩ := e
    by_cases hk : k' = k
    · simp [updList, hk]
    · have hmem : k ∈ rest.map Prod.fst := by
        rw [List.map_cons] at h
        rcases List.mem_cons.mp h with h1 | h1
        · exact absurd h1.symm hk
        · exact h1
      simp [updList, hk, ih hmem]

/-- Helper: writing a fresh key appends it to the key list. -/
theorem keys_updList_of_not_mem {α β : Type} [DecidableEq α] (k : α) (v : β)
    (l : List (α × β)) (h : k ∉ l.map Prod.fst) :
    (updList k v l).map Prod.fst = l.map Prod.fst ++ [k] := by
  induction l with
  | nil => simp [updList]
  | cons e rest ih =>
    obtain ⟨k', v'⟩ := e
    have hk : ¬ k' = k := by
      intro hkk
      exact h (by simp [hkk])
    have hmem : k ∉ rest.map Prod.fst := by
      intro hm
      exact h (by simp [hm])
    simp [updList, hk, ih hmem]

/-- Helper: deleting a key filters it out of the key list. -/
theorem keys_delKey {α β : Type} [DecidableEq α] (k : α) (l : List (α × β)) :
    (delKey k l).map Prod.fst = (l.map Prod.fst).filter (fun x => x ≠ k) := by
  induction l with
  | nil => simp [delKey]
  | cons e rest ih =>
    obtain ⟨k', v'⟩ := e
    by_cases h : k' = k <;> simp [delKey, h, ih, List.filter_cons]

/-- Helper: a deleted key reads `none`. -/
theorem getKey_delKey_self {α β : Type} [DecidableEq α] (k : α)
    (l : List (α × β)) : getKey k (delKey k l) = none := by
  induction l with
  | nil => rfl
  | cons e rest ih =>
    obtain ⟨k', v'⟩ := e
    by_cases h : k' = k <;> simp [delKey, h, getKey, ih]

/-- Helper: stopping an observer flips its running flag to `false` and is
visible through `getKey`. -/
theorem getKey_stopObs (oid : Nat) (obs : List (Nat × Bool)) :
    getKey oid (stopObs oid obs) = (getKey oid obs).map (fun _ => false) := by
  induction obs with
  | nil => rfl
  | cons e rest ih =>
    obtain ⟨i, b⟩ := e
    by_cases h : i = oid
    · subst h
      simp only [stopObs, List.map_cons] at ih ⊢
      simp [getKey]
    · simp only [stopObs, List.map_cons] at ih ⊢
      rw [if_neg h]
      simp [getKey, h, ih]

/-- Helper: a subscribe to a path that already has an observer attaches the
socket to the existing handler and changes nothing else (source lines
158-162); the requested options and the `OSError` environment are not
consulted. -/
theorem initiation_handler_attach (st : ServerState) (sock : Nat) (path : String)
    (en dis : List String) (sf : Bool) (oid : Nat) (h : Argus)
    (hobs : getKey path st.active_observers = some oid)
    (hh : getKey path st.active_handlers = some h) :
    (initiation_handler st sock path true en dis sf).st =
      { st with
        active_handlers :=
          updList path { h with websockets := h.websockets ++ [sock] }
            st.active_handlers } ∧
    (initiation_handler st sock path true en dis sf).sess =
      { sock := sock, path := path, observer := some oid,
        started_observer := true } ∧
    (initiation_handler st sock path true en dis sf).messages = [] ∧
    (initiation_handler st sock path true en dis sf).closed = false ∧
    (initiation_handler st sock path true en dis sf).error = false := by
  simp [initiation_handler, hobs, hh]

/-- Helper: a subscribe to a fresh path with non-empty resolved options and
no `OSError` constructs the handler, starts one observer, and inserts both
registry entries (source lines 163-186). -/
theorem initiation_handler_new (st : ServerState) (sock : Nat) (path : String)
    (en dis : List String)
    (hobs : getKey path st.active_observers = none)
    (hopts : define_options en dis ≠ []) :
    (initiation_handler st sock path true en dis false).st =
      { st with
        active_handlers :=
          updList path
            { websockets := [sock], root := path,
              options := define_options en dis }
            st.active_handlers,
        active_observers := updList path st.next_id st.active_observers,
        observers := st.observers ++ [(st.next_id, true)],
        next_id := st.next_id + 1 } ∧
    (initiation_handler st sock path true en dis false).sess =
      { sock := sock, path := path, observer := some st.next_id,
        started_observer := true } ∧
    (initiation_handler st sock path true en dis false).messages = [] ∧
    (initiation_handler st sock path true en dis false).closed = false ∧
    (initiation_handler st sock path true en dis false).error = false := by
  simp [initiation_handler, hobs, hopts]

/-- Helper: folding attach-only subscribes over a path that already has an
observer grows that handler's subscriber list by the subscribed sockets, in
order, and leaves the observer tables, the observer log, the id counter and
the handler key list unchanged. -/
theorem subscribeAll_attach (p : String) (en dis : List String) (socks : List Nat) :
    ∀ (st : ServerState) (oid : Nat) (h : Argus),
      getKey p st.active_observers = some oid →
      getKey p st.active_handlers = some h →
      getKey p (subscribeAll p en dis st socks).active_handlers =
          some { h with websockets := h.websockets ++ socks } ∧
      (subscribeAll p en dis st socks).active_observers = st.active_observers ∧
      (subscribeAll p en dis st socks).observers = st.observers ∧
      (subscribeAll p en dis st socks).next_id = st.next_id ∧
      (subscribeAll p en dis st socks).active_handlers.map Prod.fst =
          st.active_handlers.map Prod.fst := by
  induction socks with
  | nil =>
    intro st oid h hobs hh
    simp [subscribeAll, hh]
  | cons s rest ih =>
    intro st oid h hobs hh
    rw [subscribeAll, (initiation_handler_attach st s p en dis false oid h hobs hh).1]
    obtain ⟨A, B, C, D, E⟩ := ih
      { st with
        active_handlers :=
          updList p { h with websockets := h.websockets ++ [s] }
            st.active_handlers }
      oid { h with websockets := h.websockets ++ [s] }
      hobs (getKey_updList_self p _ st.active_handlers)
    refine ⟨?_, B, C, D, ?_⟩
    · rw [A]
      simp
    · rw [E]
      exact keys_updList_of_mem p _ st.active_handlers (mem_keys_of_getKey_eq_some hh)

/-- CLAIM C1. Subscribing `N = 1 + |rest|` sessions to the same existing
path `p` that is not yet watched: the first subscribe creates and starts
exactly one observer, every later subscribe attaches its socket to the
existing handler without creating or starting another observer, the
handler's subscriber list ends up being exactly the `N` subscribed sockets,
and both registry key lists stay duplicate-free (at most one handler and
one observer per path). -/
theorem registry_unique_watch_per_path (st : ServerState) (p : String)
    (en dis : List String) (s0 : Nat) (rest : List Nat)
    (hobs : getKey p st.active_observers = none)
    (hh : getKey p st.active_handlers = none)
    (hopts : define_options en dis ≠ [])
    (hnd1 : (st.active_handlers.map Prod.fst).Nodup)
    (hnd2 : (st.active_observers.map Prod.fst).Nodup) :
    getKey p (subscribeAll p en dis st (s0 :: rest)).active_handlers =
        some { websockets := s0 :: rest, root := p,
               options := define_options en dis } ∧
    (subscribeAll p en dis st (s0 :: rest)).observers =
        st.observers ++ [(st.next_id, true)] ∧
    runningCount (subscribeAll p en dis st (s0 :: rest)) = runningCount st + 1 ∧
    ((subscribeAll p en dis st (s0 :: rest)).active_handlers.map Prod.fst).Nodup ∧
    ((subscribeAll p en dis st (s0 :: rest)).active_observers.map Prod.fst).Nodup := by
  rw [subscribeAll, (initiation_handler_new st s0 p en dis hobs hopts).1]
  obtain ⟨A, B, C, D, E⟩ := subscribeAll_attach p en dis rest
    { st with
      active_handlers :=
        updList p
          { websockets := [s0], root := p, options := define_options en dis }
          st.active_handlers,
      active_observers := updList p st.next_id st.active_observers,
      observers := st.observers ++ [(st.next_id, true)],
      next_id := st.next_id + 1 }
    st.next_id { websockets := [s0], root := p, options := define_options en dis }
    (getKey_updList_self p st.next_id st.active_observers)
    (getKey_updList_self p _ st.active_handlers)
  refine ⟨A, C, ?_, ?_, ?_⟩
  · simp only [runningCount, C]
    simp [List.filter_append]
  · simp only [E]
    rw [keys_updList_of_not_mem p _ st.active_handlers
        ((getKey_eq_none_iff p st.active_handlers).mp hh),
      List.nodup_append]
    refine ⟨hnd1, List.nodup_singleton p, ?_⟩
    intro a ha hb
    rw [List.mem_singleton] at hb
    rw [hb] at ha
    exact (getKey_eq_none_iff p st.active_handlers).mp hh ha
  · simp only [B]
    rw [keys_updList_of_not_mem p st.next_id st.active_observers
        ((getKey_eq_none_iff p st.active_observers).mp hobs),
      List.nodup_append]
    refine ⟨hnd2, List.nodup_singleton p, ?_⟩
    intro a ha hb
    rw [List.mem_singleton] at hb
    rw [hb] at ha
    exact (getKey_eq_none_iff p st.active_observers).mp hobs ha

/-- Witness for C1: two sessions subscribe to `/a` starting from the empty
registry. -/
theorem registry_unique_watch_per_path_witness :
    getKey "/a"
        (subscribeAll "/a" [] []
          { active_handlers := [], active_observers := [], observers := [],
            next_id := 0 } [7, 8]).active_handlers =
      some { websockets := [7, 8], root := "/a",
             options := define_options [] [] } ∧
    runningCount
        (subscribeAll "/a" [] []
          { active_handlers := [], active_observers := [], observers := [],
            next_id := 0 } [7, 8]) =
      runningCount
        { active_handlers := [], active_observers := [], observers := [],
          next_id := 0 } + 1 := by
  have h := registry_unique_watch_per_path
    { active_handlers := [], active_observers := [], observers := [], next_id := 0 }
    "/a" [] [] 7 [8] (by decide) (by decide) (by decide) (by decide) (by decide)
  exact ⟨h.1, h.2.2.1⟩

/-- CLAIM C6. Closing a session that successfully subscribed removes its
socket from the path's handler; exactly when the subscriber list becomes
empty, the observer is stopped and both registry entries for the path are
deleted; otherwise the observer tables and the observer log are untouched
and every other subscriber's membership is unchanged. -/
theorem unsubscribe_spec (st : ServerState) (sess : Session) (h : Argus)
    (oid : Nat)
    (hso : sess.started_observer = true)
    (hobs : sess.observer = some oid)
    (hh : getKey sess.path st.active_handlers = some h) :
    (on_close st sess).error = false ∧
    (∀ x, x ≠ sess.sock →
      (x ∈ h.websockets.erase sess.sock ↔ x ∈ h.websockets)) ∧
    (h.websockets.Nodup → sess.sock ∉ h.websockets.erase sess.sock) ∧
    (h.websockets.erase sess.sock = [] →
      getKey sess.path (on_close st sess).st.active_handlers = none ∧
      getKey sess.path (on_close st sess).st.active_observers = none ∧
      getKey oid (on_close st sess).st.observers =
        (getKey oid st.observers).map (fun _ => false)) ∧
    (h.websockets.erase sess.sock ≠ [] →
      getKey sess.path (on_close st sess).st.active_handlers =
        some { h with websockets := h.websockets.erase sess.sock } ∧
      (on_close st sess).st.active_observers = st.active_observers ∧
      (on_close st sess).st.observers = st.observers) := by
  refine ⟨?_, ?_, ?_, ?_, ?_⟩
  · by_cases hw : h.websockets.erase sess.sock = [] <;>
      simp [on_close, hso, hh, hobs, hw]
  · intro x hx
    exact List.mem_erase_of_ne hx
  · intro hnd hmem
    exact ((List.Nodup.mem_erase_iff hnd).mp hmem).1 rfl
  · intro hw
    refine ⟨?_, ?_, ?_⟩ <;>
      simp [on_close, hso, hh, hobs, hw, getKey_delKey_self, getKey_stopObs]
  · intro hw
    refine ⟨?_, ?_, ?_⟩ <;>
      simp [on_close, hso, hh, hobs, hw, getKey_updList_self]

/-- Witness for C6: one of two subscribers of `/a` disconnects; the other
stays and the observer tables are untouched. -/
theorem unsubscribe_spec_witness :
    (on_close stC6 sessC6).error = false ∧
    getKey "/a" (on_close stC6 sessC6).st.active_handlers =
      some { websockets := [1], root := "/a", options := default_options } ∧
    (on_close stC6 sessC6).st.observers = [(0, true)] := by
  have h := unsubscribe_spec stC6 sessC6 hC6 0 (by decide) (by decide) (by decide)
  exact ⟨h.1, (h.2.2.2.2 (by decide)).1, (h.2.2.2.2 (by decide)).2.2⟩

/-- CLAIM C7. Subscribe errors are terminal and leave the registry
unchanged: a non-existent path gets the diagnostic `Path does not exist.`
and a close with the state untouched; an `OSError` on observer start gets
the diagnostic `Cannot start observer` and a close, and neither registry
table is mutated. -/
theorem subscribe_errors_terminal :
    (∀ (st : ServerState) (sock : Nat) (path : String) (en dis : List String)
        (sf : Bool),
      (initiation_handler st sock path false en dis sf).st = st ∧
      (initiation_handler st sock path false en dis sf).messages =
        ["Path does not exist."] ∧
      (initiation_handler st sock path false en dis sf).closed = true ∧
      (initiation_handler st sock path false en dis sf).sess.started_observer =
        false) ∧
    (∀ (st : ServerState) (sock : Nat) (path : String) (en dis : List String),
      getKey path st.active_observers = none →
      define_options en dis ≠ [] →
      (initiation_handler st sock path true en dis true).st.active_handlers =
        st.active_handlers ∧
      (initiation_handler st sock path true en dis true).st.active_observers =
        st.active_observers ∧
      (initiation_handler st sock path true en dis true).messages =
        ["Cannot start observer"] ∧
      (initiation_handler st sock path true en dis true).closed = true ∧
      (initiation_handler st sock path true en dis true).sess.started_observer =
        false) := by
  constructor
  · intro st sock path en dis sf
    simp [initiation_handler]
  · intro st sock path en dis hobs hopts
    simp [initiation_handler, hobs, hopts]

/-- Witness for C7 at concrete inputs. -/
theorem subscribe_errors_terminal_witness :
    (initiation_handler
        { active_handlers := [], active_observers := [], observers := [],
          next_id := 0 } 9 "/c" false [] [] false).messages =
      ["Path does not exist."] ∧
    (initiation_handler
        { active_handlers := [], active_observers := [], observers := [],
          next_id := 0 } 9 "/d" true [] [] true).st.active_handlers = [] ∧
    (initiation_handler
        { active_handlers := [], active_observers := [], observers := [],
          next_id := 0 } 9 "/d" true [] [] true).messages =
      ["Cannot start observer"] := by
  have h1 := subscribe_errors_terminal.1
    { active_handlers := [], active_observers := [], observers := [], next_id := 0 }
    9 "/c" [] [] false
  have h2 := subscribe_errors_terminal.2
    { active_handlers := [], active_observers := [], observers := [], next_id := 0 }
    9 "/d" [] [] (by decide) (by decide)
  exact ⟨h1.2.1, h2.1, h2.2.2.1⟩

/-- CLAIM C8. A subscribe to an unwatched path whose options resolve to the
empty set is a silent no-op: the state is unchanged, no handler or observer
is constructed, no diagnostic is written and the connection stays open. -/
theorem empty_options_silent_noop (st : ServerState) (sock : Nat)
    (path : String) (en dis : List String) (sf : Bool)
    (hobs : getKey path st.active_observers = none)
    (hopts : define_options en dis = []) :
    initiation_handler st sock path true en dis sf =
      { st := st,
        sess := { sock := sock, path := path, observer := none,
                  started_observer := false },
        messages := [], closed := false, error := false } := by
  simp [initiation_handler, hobs, hopts]

/-- Witness for C8: `disable=[all]` with no enable resolves to the empty
option set and the subscribe is a silent no-op. -/
theorem empty_options_silent_noop_witness :
    initiation_handler
        { active_handlers := [], active_observers := [], observers := [],
          next_id := 0 } 9 "/b" true [] ["all"] false =
      { st := { active_handlers := [], active_observers := [], observers := [],
                next_id := 0 },
        sess := { sock := 9, path := "/b", observer := none,
                  started_observer := false },
        messages := [], closed := false, error := false } :=
  empty_options_silent_noop
    { active_handlers := [], active_observers := [], observers := [], next_id := 0 }
    9 "/b" [] ["all"] false (by decide) (by decide)

/-- CLAIM C9. When the subscribed path already has an active watch, the
session's requested enable/disable lists and the `OSError` environment are
never consulted — the outcome is identical for any two requests — and the
socket is attached to the existing handler, whose option set (fixed by the
first subscriber) is unchanged. -/
theorem existing_watch_ignores_request (st : ServerState) (sock : Nat)
    (path : String) (en₁ dis₁ en₂ dis₂ : List String) (sf₁ sf₂ : Bool)
    (hobs : (getKey path st.active_observers).isSome = true) :
    initiation_handler st sock path true en₁ dis₁ sf₁ =
      initiation_handler st sock path true en₂ dis₂ sf₂ ∧
    (∀ h, getKey path st.active_handlers = some h →
      getKey path
          (initiation_handler st sock path true en₁ dis₁ sf₁).st.active_handlers =
        some { h with websockets := h.websockets ++ [sock] }) := by
  obtain ⟨oid, hoid⟩ := Option.isSome_iff_exists.mp hobs
  constructor
  · cases hh : getKey path st.active_handlers with
    | none => simp [initiation_handler, hoid, hh]
    | some h => simp [initiation_handler, hoid, hh]
  · intro h hh
    rw [(initiation_handler_attach st sock path en₁ dis₁ sf₁ oid h hoid hh).1]
    exact getKey_updList_self path _ st.active_handlers

/-- Witness for C9: a second subscriber with options that would resolve to
the empty set is attached anyway, and the handler keeps `CRfile`. -/
theorem existing_watch_ignores_request_witness :
    initiation_handler stC9 2 "/a" true [] ["all"] false =
      initiation_handler stC9 2 "/a" true ["MDdir"] [] true ∧
    getKey "/a" (initiation_handler stC9 2 "/a" true [] ["all"] false).st.active_handlers =
      some { websockets := [1, 2], root := "/a", options := ["CRfile"] } := by
  have h := existing_watch_ignores_request stC9 2 "/a" [] ["all"] ["MDdir"] []
    false true (by decide)
  exact ⟨h.1, h.2 hC9 (by decide)⟩

/-- CLAIM C10. Both subscribe (`initiation_handler`) and unsubscribe
(`on_close`) preserve the invariant that `active_handlers` and
`active_observers` hold exactly the same keys: entries are inserted into
both tables together and deleted from both together. -/
theorem registry_tables_same_keys :
    (∀ (st : ServerState) (sock : Nat) (path : String) (pe : Bool)
        (en dis : List String) (sf : Bool),
      keysEq st → keysEq (initiation_handler st sock path pe en dis sf).st) ∧
    (∀ (st : ServerState) (sess : Session),
      keysEq st → keysEq (on_close st sess).st) := by
  constructor
  · intro st sock path pe en dis sf hk
    cases pe with
    | false => simpa [initiation_handler, keysEq] using hk
    | true =>
      cases hobs : getKey path st.active_observers with
      | some oid =>
        cases hh : getKey path st.active_handlers with
        | none => simpa [initiation_handler, hobs, hh, keysEq] using hk
        | some h =>
          rw [keysEq, (initiation_handler_attach st sock path en dis sf oid h hobs hh).1]
          show (updList path { h with websockets := h.websockets ++ [sock] }
              st.active_handlers).map Prod.fst =
            st.active_observers.map Prod.fst
          rw [keys_updList_of_mem path _ st.active_handlers
            (mem_keys_of_getKey_eq_some hh)]
          exact hk
      | none =>
        by_cases hopt : define_options en dis = []
        · simpa [initiation_handler, hobs, hopt, keysEq] using hk
        · cases sf with
          | true => simpa [initiation_handler, hobs, hopt, keysEq] using hk
          | false =>
            have hpo : path ∉ st.active_observers.map Prod.fst :=
              (getKey_eq_none_iff path st.active_observers).mp hobs
            have hph : path ∉ st.active_handlers.map Prod.fst := by
              rw [keysEq] at hk
              rw [hk]
              exact hpo
            rw [keysEq, (initiation_handler_new st sock path en dis hobs hopt).1]
            show (updList path
                { websockets := [sock], root := path,
                  options := define_options en dis }
                st.active_handlers).map Prod.fst =
              (updList path st.next_id st.active_observers).map Prod.fst
            rw [keys_updList_of_not_mem path _ st.active_handlers hph,
              keys_updList_of_not_mem path st.next_id st.active_observers hpo,
              hk]
  · intro st sess hk
    cases hso : sess.started_observer with
    | false => simpa [on_close, hso, keysEq] using hk
    | true =>
      cases hh : getKey sess.path st.active_handlers with
      | none => simpa [on_close, hso, hh, keysEq] using hk
      | some h =>
        by_cases hw : h.websockets.erase sess.sock = []
        · have hdel : (on_close st sess).st.active_handlers =
              delKey sess.path st.active_handlers ∧
              (on_close st sess).st.active_observers =
                delKey sess.path st.active_observers := by
            constructor <;> simp [on_close, hso, hh, hw]
          rw [keysEq, hdel.1, hdel.2, keys_delKey, keys_delKey, hk]
        · have hupd : (on_close st sess).st.active_handlers =
              updList sess.path { h with websockets := h.websockets.erase sess.sock }
                st.active_handlers ∧
              (on_close st sess).st.active_observers = st.active_observers := by
            constructor <;> simp [on_close, hso, hh, hw]
          rw [keysEq, hupd.1, hupd.2,
            keys_updList_of_mem sess.path _ st.active_handlers
              (mem_keys_of_getKey_eq_some hh)]
          exact hk

/-- Witness for C10: the invariant holds for the empty registry and is
preserved by a fresh subscribe and by a close. -/
theorem registry_tables_same_keys_witness :
    keysEq (initiation_handler
      { active_handlers := [], active_observers := [], observers := [],
        next_id := 0 } 7 "/a" true [] [] false).st ∧
    keysEq (on_close stC6 sessC6).st := by
  constructor
  · exact registry_tables_same_keys.1
      { active_handlers := [], active_observers := [], observers := [], next_id := 0 }
      7 "/a" true [] [] false rfl
  · exact registry_tables_same_keys.2 stC6 sessC6 rfl
